import Mathlib

/-!
Shallow embedding of the news module in src/news.js: credential resolution,
the dual-backend content store (list, save, delete one, clear all), the role
authentication and quota logic of the publish handler, and the bulk-clear
handler. Browser facilities are made explicit: the relevant window globals
and localStorage slots become state values, dialog outcomes become arguments,
and the network becomes an environment recording the response each request
would receive. JSON (de)serialization of the two localStorage slots is
abstracted into blob types that distinguish empty text, text the parser
rejects, and well-formed text together with the value it encodes.
-/

namespace LishNews

/-- Runtime errors the modelled code can raise: a JSON.parse failure or a
property access or method call on undefined. -/
inductive JsError
  | parseError
  | typeError
deriving DecidableEq

/-- A JavaScript value as it can appear in the id position of a stored item:
absent (undefined), a string, or a number. Items created by the publish
handler carry no id property at all (news.js:449-458), which is the vUndef
case. -/
inductive JVal
  | vUndef
  | vStr (s : String)
  | vNum (n : Int)
deriving DecidableEq

/-- JS toString on an id value, as invoked at news.js:127: a TypeError is
raised when the value is undefined. -/
def JVal.toStr : JVal → Except JsError String
  | .vUndef => .error .typeError
  | .vStr s => .ok s
  | .vNum n => .ok (toString n)

/-- Text rendering of an id value that is known to be defined; agrees with
JVal.toStr away from vUndef. -/
def idText : JVal → String
  | .vUndef => ""
  | .vStr s => s
  | .vNum n => toString n

/-- A news record as held in memory and in the local slot (the shape mapped
at news.js:51-61 and built at news.js:449-458). -/
structure NewsItem where
  id : JVal
  title : String
  content : String
  author : String
  date : String
  image_url : String
  video_url : String
  link_url : String
  publisher_role : String
deriving DecidableEq

/-- A row of the remote news table, in the column names the REST list
endpoint returns (news.js:51-61). -/
structure RemoteRow where
  id : Int
  title : String
  content : String
  author : String
  news_date : String
  image_url : String
  video_url : String
  link_url : String
  publisher_role : String
deriving DecidableEq

/-- The per-row field mapping applied to a fetched row (news.js:51-61). -/
def mapRow (r : RemoteRow) : NewsItem :=
  { id := .vNum r.id, title := r.title, content := r.content,
    author := r.author, date := r.news_date, image_url := r.image_url,
    video_url := r.video_url, link_url := r.link_url,
    publisher_role := r.publisher_role }

/-- Content of the localStorage slot supabaseSyncSettings as seen by the
reader at news.js:18-23: the empty string (falsy, so never parsed), text on
which the parse-and-read raises, or a parsed object with optional url and
key fields. -/
inductive SettingsBlob
  | emptyText
  | malformed (s : String)
  | parsed (url : Option String) (key : Option String)
deriving DecidableEq

/-- Content of the localStorage slot mh_news_data: the empty string (falsy),
non-empty text that JSON.parse rejects, or text encoding a sequence of news
items. -/
inductive NewsBlob
  | emptyText
  | malformed (s : String)
  | jsonItems (items : List NewsItem)
deriving DecidableEq

/-- The two localStorage slots the module touches; none is an absent slot
(getItem returns null). -/
structure LocalStorage where
  supabaseSyncSettings : Option SettingsBlob
  mh_news_data : Option NewsBlob
deriving DecidableEq

/-- The SUPABASE_PUBLIC_CONFIG global object (news.js:13-15), with its two
fields possibly absent. -/
structure PublicConfig where
  URL : Option String
  ANON_KEY : Option String
deriving DecidableEq

/-- The window globals the module reads. The digest window.hashPassword is
defined outside this file and is passed to the handlers as a function
argument. -/
structure Window where
  SB_URL : Option String
  SB_KEY : Option String
  SUPABASE_PUBLIC_CONFIG : Option PublicConfig
  ADMIN_PASSWORD_HASH : String
  USER_PASSWORD_HASH : String
deriving DecidableEq

/-- JS truthiness of an optional string: undefined and the empty string are
falsy, every other string is truthy. -/
def truthy : Option String → Bool
  | none => false
  | some s => !s.isEmpty

/-- The pair returned by getSupabaseCredentials (news.js:27). -/
structure Creds where
  url : Option String
  key : Option String
deriving DecidableEq

/-- getSupabaseCredentials (news.js:8-28). The three tiers: window globals;
then, when either global is falsy, the public-config object if present
(its fields taken unconditionally); otherwise the settings slot, whose
parse failure is swallowed, leaving the globals in place. -/
def getSupabaseCredentials (w : Window) (ls : LocalStorage) : Creds :=
  let url := w.SB_URL
  let key := w.SB_KEY
  if !truthy url || !truthy key then
    match w.SUPABASE_PUBLIC_CONFIG with
    | some cfg => { url := cfg.URL, key := cfg.ANON_KEY }
    | none =>
      match ls.supabaseSyncSettings with
      | some (.parsed u k) => { url := u, key := k }
      | _ => { url := url, key := key }
  else
    { url := url, key := key }

/-- The test every operation applies to the resolved credentials: the remote
path is taken exactly when both url and key are truthy (the code tests the
negation, as in news.js:34, 76, 125, 328, 506). -/
def remoteMode (c : Creds) : Bool := truthy c.url && truthy c.key

/-- Outcome of one HTTP request: success carrying the parsed body, a
non-success status carrying the response body text, or a transport
exception. -/
inductive FetchOutcome (α : Type)
  | ok (a : α)
  | httpErr (body : String)
  | netErr
deriving DecidableEq

/-- The environment of one operation: the response the network would give to
each request the module can make, plus the current timestamp used at
news.js:453. The generated upload file name (news.js:331) is abstracted into
the upload response fields, which hold the public URL on success and none on
failure, as uploadFile itself collapses them (news.js:347-356). -/
structure Env where
  listResp : FetchOutcome (List RemoteRow)
  insertResp : FetchOutcome Unit
  deleteResp : FetchOutcome Unit
  deleteAllResp : FetchOutcome Unit
  uploadImageResp : Option String
  uploadVideoResp : Option String
  now : String
deriving DecidableEq

/-- The repeated local read, stored then JSON.parse(stored) else empty
(news.js:36-37 and 68-69); also the variant with the default, parsing
getItem-or-"[]" (news.js:77 and 126), which treats the same inputs the same
way: an absent slot or empty text gives the empty list, malformed text
raises, well-formed text gives its items. -/
def readLocalNews (ls : LocalStorage) : Except JsError (List NewsItem) :=
  match ls.mh_news_data with
  | none => .ok []
  | some .emptyText => .ok []
  | some (.malformed _) => .error .parseError
  | some (.jsonItems l) => .ok l

/-- getNews (news.js:30-71): local read when not in remote mode; otherwise
the fetched rows mapped on success, and the local read as fallback on a
non-ok status (the thrown Error is caught by the same catch) or a transport
exception. -/
def getNews (w : Window) (ls : LocalStorage) (env : Env) :
    Except JsError (List NewsItem) :=
  let c := getSupabaseCredentials w ls
  if !remoteMode c then
    readLocalNews ls
  else
    match env.listResp with
    | .ok rows => .ok (rows.map mapRow)
    | .httpErr _ => readLocalNews ls
    | .netErr => readLocalNews ls

deriving instance DecidableEq for Except

/-- Result of saveNews: the returned boolean (or a raised error), the
localStorage after the call, and the alert messages shown. -/
structure SaveOut where
  result : Except JsError Bool
  ls : LocalStorage
  alerts : List String
deriving DecidableEq

/-- saveNews (news.js:73-118): local mode appends to the parsed stored
sequence and returns true (a parse failure propagates before any write);
remote mode returns true on ok, and on a non-ok status or a transport
exception alerts and returns false without touching localStorage. -/
def saveNews (w : Window) (ls : LocalStorage) (env : Env) (item : NewsItem) :
    SaveOut :=
  let c := getSupabaseCredentials w ls
  if !remoteMode c then
    match readLocalNews ls with
    | .error e => { result := .error e, ls := ls, alerts := [] }
    | .ok current =>
      { result := .ok true,
        ls := { ls with mh_news_data := some (.jsonItems (current ++ [item])) },
        alerts := [] }
  else
    match env.insertResp with
    | .ok _ => { result := .ok true, ls := ls, alerts := [] }
    | .httpErr body =>
      { result := .ok false, ls := ls,
        alerts := ["Error saving to cloud: " ++ body] }
    | .netErr =>
      { result := .ok false, ls := ls,
        alerts := ["Network error: Could not save news."] }

/-- One pass of Array.prototype.filter with the callback
item.id.toString() !== id.toString() of news.js:127: callbacks run left to
right and the first toString on an undefined value aborts the whole call.
An element is kept when its id text differs from the given id text. -/
def filterById (id : JVal) : List NewsItem → Except JsError (List NewsItem)
  | [] => .ok []
  | x :: xs => do
    let xi ← x.id.toStr
    let di ← id.toStr
    let rest ← filterById id xs
    if xi != di then .ok (x :: rest) else .ok rest

/-- Result of deleteNews or handleClearAllNews: unit or a raised error, the
localStorage after the call, whether the bulk DELETE request was issued, and
the alert messages shown. -/
structure DeleteOut where
  result : Except JsError Unit
  ls : LocalStorage
  alerts : List String
deriving DecidableEq

/-- deleteNews (news.js:120-152). The confirm dialog outcome is the
confirmed argument. After a local write the code re-renders, which re-reads
the store via getNews; the remote branch likewise only re-reads on success.
Rendering writes nothing, so only its re-read is modelled. -/
def deleteNews (w : Window) (ls : LocalStorage) (env : Env)
    (confirmed : Bool) (id : JVal) : DeleteOut :=
  if !confirmed then { result := .ok (), ls := ls, alerts := [] }
  else
    let c := getSupabaseCredentials w ls
    if !remoteMode c then
      match readLocalNews ls with
      | .error e => { result := .error e, ls := ls, alerts := [] }
      | .ok current =>
        match filterById id current with
        | .error e => { result := .error e, ls := ls, alerts := [] }
        | .ok kept =>
          let ls2 : LocalStorage :=
            { ls with mh_news_data := some (.jsonItems kept) }
          match getNews w ls2 env with
          | .ok _ => { result := .ok (), ls := ls2, alerts := [] }
          | .error e => { result := .error e, ls := ls2, alerts := [] }
    else
      match env.deleteResp with
      | .ok _ =>
        match getNews w ls env with
        | .ok _ => { result := .ok (), ls := ls, alerts := [] }
        | .error e => { result := .error e, ls := ls, alerts := [] }
      | .httpErr body =>
        { result := .ok (), ls := ls, alerts := ["Error deleting: " ++ body] }
      | .netErr =>
        { result := .ok (), ls := ls, alerts := ["Network Error"] }

/-- The publisher roles resolved by the PIN check, plus the non-role. -/
inductive Role
  | admin
  | user
  | unauth
deriving DecidableEq

/-- The PIN check of handleAddNews (news.js:399-410): the digest of the
already-trimmed PIN is compared first against the admin hash, then against
the user hash; no match is the non-role. The digest window.hashPassword is
the hash argument. -/
def authenticate (hash : String → String) (adminHash userHash pin : String) :
    Role :=
  let hashedPin := hash pin
  if hashedPin = adminHash then .admin
  else if hashedPin = userHash then .user
  else .unauth

/-- JS String.prototype.trim as used on the form fields (news.js:373-383):
strip whitespace from both ends, modelled over the character sequence so
that it evaluates by plain reduction. -/
def jsTrim (s : String) : String :=
  ⟨((s.data.dropWhile Char.isWhitespace).reverse.dropWhile
      Char.isWhitespace).reverse⟩

/-- The scheme test, regex caret https question-colon-slash-slash with the
case-insensitive flag (news.js:189, 379): an ASCII-case-insensitive prefix
http colon slash slash or https colon slash slash. -/
def hasHttpScheme (s : String) : Bool :=
  let l : List Char := s.data.map Char.toLower
  "http://".data.isPrefixOf l || "https://".data.isPrefixOf l

/-- The link auto-fix of news.js:379-381: a truthy link without an explicit
scheme gets https prepended. -/
def normalizeLink (link : String) : String :=
  if link ≠ "" && !hasHttpScheme link then "https://" ++ link else link

/-- Terminal outcome of one handleAddNews invocation. -/
inductive AddResult
  | validationRejected
  | pinMissing
  | authRejected
  | quotaRejected (current : Nat) (limit : Nat)
  | published
  | saveFailed
  | thrown (e : JsError)
deriving DecidableEq

/-- Result of handleAddNews: the terminal outcome, the localStorage after
the call, whether saveNews was invoked, how many upload requests were
started, and the alert messages shown. -/
structure AddOut where
  result : AddResult
  ls : LocalStorage
  saveCalled : Bool
  uploadCalls : Nat
  alerts : List String
deriving DecidableEq

/-- uploadFile (news.js:326-357): null without remote credentials, otherwise
the environment-supplied outcome (public URL on ok, null on a non-ok status
or a transport exception). -/
def uploadFile (w : Window) (ls : LocalStorage) (resp : Option String) :
    Option String :=
  let c := getSupabaseCredentials w ls
  if !remoteMode c then none else resp

/-- The truthiness guard around each upload result (news.js:438, 444): the
field is set only when the returned URL is truthy. -/
def uploadedField (r : Option String) : String :=
  match r with
  | some u => if u.isEmpty then "" else u
  | none => ""

/-- The tail of handleAddNews after validation, authentication and the quota
gate (news.js:424-477): optional uploads, the record built at
news.js:449-458, the save, and on success the re-render (a re-read via
getNews, whose failure propagates). -/
def publishAfterQuota (w : Window) (ls : LocalStorage) (env : Env)
    (title content link_url authorName roleStr : String)
    (hasImgFile hasVidFile : Bool) : AddOut :=
  let image_url :=
    if hasImgFile then uploadedField (uploadFile w ls env.uploadImageResp)
    else ""
  let video_url :=
    if hasVidFile then uploadedField (uploadFile w ls env.uploadVideoResp)
    else ""
  let uploadCalls :=
    (if hasImgFile then 1 else 0) + (if hasVidFile then 1 else 0)
  let newItem : NewsItem :=
    { id := .vUndef, title := title, content := content,
      author := authorName, date := env.now, image_url := image_url,
      video_url := video_url, link_url := link_url,
      publisher_role := roleStr }
  let so := saveNews w ls env newItem
  match so.result with
  | .error e =>
    { result := .thrown e, ls := so.ls, saveCalled := true,
      uploadCalls := uploadCalls, alerts := so.alerts }
  | .ok false =>
    { result := .saveFailed, ls := so.ls, saveCalled := true,
      uploadCalls := uploadCalls, alerts := so.alerts }
  | .ok true =>
    match getNews w so.ls env with
    | .ok _ =>
      { result := .published, ls := so.ls, saveCalled := true,
        uploadCalls := uploadCalls,
        alerts := so.alerts ++ ["News item published!"] }
    | .error e =>
      { result := .thrown e, ls := so.ls, saveCalled := true,
        uploadCalls := uploadCalls, alerts := so.alerts }

/-- handleAddNews (news.js:359-477), with the form fields passed as the raw
input strings and the two file inputs as booleans; the form elements are
assumed present. Validation precedes the PIN checks; the user-role quota
gate swallows a listing failure (news.js:421) and otherwise rejects at five
or more existing user items before any upload or save. -/
def handleAddNews (w : Window) (hash : String → String) (ls : LocalStorage)
    (env : Env) (titleRaw contentRaw linkRaw pinRaw : String)
    (hasImgFile hasVidFile : Bool) : AddOut :=
  let title := jsTrim titleRaw
  let content := jsTrim contentRaw
  let link_url := normalizeLink (jsTrim linkRaw)
  let pin := jsTrim pinRaw
  if title = "" ∨ content = "" then
    { result := .validationRejected, ls := ls, saveCalled := false,
      uploadCalls := 0, alerts := ["Please fill in title and content."] }
  else if pin = "" then
    { result := .pinMissing, ls := ls, saveCalled := false,
      uploadCalls := 0, alerts := ["Please enter a Publish PIN."] }
  else
    let role := authenticate hash w.ADMIN_PASSWORD_HASH w.USER_PASSWORD_HASH pin
    if role = .unauth then
      { result := .authRejected, ls := ls, saveCalled := false,
        uploadCalls := 0, alerts := ["Incorrect PIN. Please try again."] }
    else
      let authorName := if role = .admin then "Admin" else "User"
      let roleStr := if role = .admin then "admin" else "user"
      let quotaHit : Option Nat :=
        if role = .user then
          match getNews w ls env with
          | .ok existingNews =>
            let userPosts :=
              (existingNews.filter (fun it => it.publisher_role == "user")).length
            if userPosts ≥ 5 then some userPosts else none
          | .error _ => none
        else none
      match quotaHit with
      | some userPosts =>
        { result := .quotaRejected userPosts 5, ls := ls,
          saveCalled := false, uploadCalls := 0,
          alerts := ["User limit reached! You have already published "
            ++ toString userPosts ++ "/5 items."] }
      | none =>
        publishAfterQuota w ls env title content link_url authorName roleStr
          hasImgFile hasVidFile

/-- Result of handleClearAllNews: unit or a raised error, the localStorage
after the call, whether the bulk DELETE request was issued, and the alerts
shown. -/
structure ClearOut where
  result : Except JsError Unit
  ls : LocalStorage
  requestedDeleteAll : Bool
  alerts : List String
deriving DecidableEq

/-- handleClearAllNews (news.js:493-529): confirm dialog, PIN prompt (none
when cancelled; the empty string is falsy), fresh admin check on the
untrimmed prompt text, then — remote mode only — the bulk DELETE; in
local-fallback mode the handler returns without touching the store
(news.js:506). -/
def handleClearAllNews (w : Window) (hash : String → String)
    (ls : LocalStorage) (env : Env) (confirmed : Bool)
    (promptPin : Option String) : ClearOut :=
  if !confirmed then
    { result := .ok (), ls := ls, requestedDeleteAll := false, alerts := [] }
  else
    match promptPin with
    | none =>
      { result := .ok (), ls := ls, requestedDeleteAll := false, alerts := [] }
    | some pin =>
      if pin = "" then
        { result := .ok (), ls := ls, requestedDeleteAll := false,
          alerts := [] }
      else if hash pin ≠ w.ADMIN_PASSWORD_HASH then
        { result := .ok (), ls := ls, requestedDeleteAll := false,
          alerts := ["Access Denied: Incorrect PIN. Only Admin can clear all news."] }
      else
        let c := getSupabaseCredentials w ls
        if !remoteMode c then
          { result := .ok (), ls := ls, requestedDeleteAll := false,
            alerts := [] }
        else
          match env.deleteAllResp with
          | .ok _ =>
            { result := .ok (), ls := ls, requestedDeleteAll := true,
              alerts := ["All news items have been deleted."] }
          | .httpErr body =>
            { result := .ok (), ls := ls, requestedDeleteAll := true,
              alerts := ["Error clearing news: " ++ body] }
          | .netErr =>
            { result := .ok (), ls := ls, requestedDeleteAll := true,
              alerts := ["Network Error"] }

/-- Effect on the remote table of the DELETE request with query id=neq.0
issued by handleClearAllNews (news.js:510): exactly the rows matching the
filter id different from 0 are removed, the non-matching rows remain. -/
def applyClearAllRequest (rows : List RemoteRow) : List RemoteRow :=
  rows.filter (fun r => !(r.id != 0))

/-! Concrete states used by counterexamples and witnesses. -/

/-- A window with no credentials anywhere: every operation takes the
local-fallback path. -/
def noCredsWindow : Window :=
  { SB_URL := none, SB_KEY := none, SUPABASE_PUBLIC_CONFIG := none,
    ADMIN_PASSWORD_HASH := "AH", USER_PASSWORD_HASH := "UH" }

/-- A window whose injected globals carry full credentials: every operation
takes the remote path. -/
def remoteWindow : Window :=
  { SB_URL := some "https://db.example", SB_KEY := some "anonkey",
    SUPABASE_PUBLIC_CONFIG := none,
    ADMIN_PASSWORD_HASH := "AH", USER_PASSWORD_HASH := "UH" }

/-- An environment in which every request fails with a transport error. -/
def quietEnv : Env :=
  { listResp := .netErr, insertResp := .netErr, deleteResp := .netErr,
    deleteAllResp := .netErr, uploadImageResp := none,
    uploadVideoResp := none, now := "2026-01-02T00:00:00.000Z" }

/-- A stored item with a string id, as a remote row round-tripped through
the local slot would have. -/
def sampleItem : NewsItem :=
  { id := .vStr "1", title := "T", content := "C", author := "Admin",
    date := "2026-01-01", image_url := "", video_url := "", link_url := "",
    publisher_role := "admin" }

/-- Local storage holding exactly one well-formed item and no settings. -/
def oneItemStorage : LocalStorage :=
  { supabaseSyncSettings := none,
    mh_news_data := some (.jsonItems [sampleItem]) }

/-- Local storage with both slots absent. -/
def emptyStorage : LocalStorage :=
  { supabaseSyncSettings := none, mh_news_data := none }

/-- Local storage whose news slot holds text that JSON.parse rejects. -/
def malformedStorage : LocalStorage :=
  { supabaseSyncSettings := none, mh_news_data := some (.malformed "not json") }

/-- A user-published item with the given string id. -/
def userItem (i : Nat) : NewsItem :=
  { id := .vStr (toString i), title := "t", content := "c", author := "User",
    date := "2026-01-01", image_url := "", video_url := "", link_url := "",
    publisher_role := "user" }

/-- Local storage already holding five user-published items. -/
def fiveUserStorage : LocalStorage :=
  { supabaseSyncSettings := none,
    mh_news_data := some (.jsonItems
      [userItem 1, userItem 2, userItem 3, userItem 4, userItem 5]) }

/-! Claim theorems. -/

/-- C2 counterexample: with malformed text in the local persistence slot,
list in local-fallback mode raises a parse error — it does not return a
normal (empty) result. -/
theorem c2_counterexample :
    getNews noCredsWindow malformedStorage quietEnv = .error .parseError ∧
    getNews noCredsWindow malformedStorage quietEnv ≠ .ok [] := by
  decide

/-- C2 (amended): in local-fallback mode an absent slot or empty stored text
is treated as empty by list, but malformed non-empty text is not tolerated:
list propagates a parse error instead of returning a result. -/
theorem c2_amended (w : Window) (ls : LocalStorage) (env : Env)
    (hm : remoteMode (getSupabaseCredentials w ls) = false) :
    (ls.mh_news_data = none → getNews w ls env = .ok []) ∧
    (ls.mh_news_data = some .emptyText → getNews w ls env = .ok []) ∧
    (∀ s, ls.mh_news_data = some (.malformed s) →
      getNews w ls env = .error .parseError) := by
  refine ⟨?_, ?_, ?_⟩ <;>
    · intro h
      first
        | (simp [getNews, hm, readLocalNews, h])
        | (intro h2; simp [getNews, hm, readLocalNews, h2])

/-- C2 amended witness at concrete states. -/
theorem c2_amended_witness :
    getNews noCredsWindow emptyStorage quietEnv = .ok [] ∧
    getNews noCredsWindow malformedStorage quietEnv = .error .parseError :=
  ⟨(c2_amended noCredsWindow emptyStorage quietEnv (by decide)).1 rfl,
   (c2_amended noCredsWindow malformedStorage quietEnv (by decide)).2.2
     "not json" rfl⟩

/-- C7: in remote mode, when the list request does not succeed (non-ok
status or transport exception), list returns the locally stored sequence
rather than failing the caller. -/
theorem c7_list_fallback (w : Window) (ls : LocalStorage) (env : Env)
    (l : List NewsItem)
    (hm : remoteMode (getSupabaseCredentials w ls) = true)
    (hf : ∀ rows, env.listResp ≠ .ok rows)
    (hl : readLocalNews ls = .ok l) :
    getNews w ls env = .ok l := by
  cases h : env.listResp with
  | ok rows => exact absurd h (hf rows)
  | httpErr body => simp [getNews, hm, h, hl]
  | netErr => simp [getNews, hm, h, hl]

/-- C7 witness: remote mode, HTTP 500 on list, one locally stored item. -/
theorem c7_list_fallback_witness :
    getNews remoteWindow oneItemStorage
      { quietEnv with listResp := .httpErr "Internal Server Error" }
      = .ok [sampleItem] :=
  c7_list_fallback remoteWindow oneItemStorage
    { quietEnv with listResp := .httpErr "Internal Server Error" }
    [sampleItem] (by decide) (by intro rows h; cases h) (by decide)

/-- C8: in remote mode, a failed save (non-ok status or transport
exception) returns false, shows a user-visible alert, and leaves the local
stored sequence untouched — it is never redirected to local storage. -/
theorem c8_save_no_silent_fallback (w : Window) (ls : LocalStorage)
    (env : Env) (item : NewsItem)
    (hm : remoteMode (getSupabaseCredentials w ls) = true)
    (hf : env.insertResp ≠ .ok ()) :
    (saveNews w ls env item).result = .ok false ∧
    (saveNews w ls env item).ls = ls ∧
    (saveNews w ls env item).alerts ≠ [] := by
  cases h : env.insertResp with
  | ok u => cases u; exact absurd h hf
  | httpErr body => refine ⟨?_, ?_, ?_⟩ <;> simp [saveNews, hm, h]
  | netErr => refine ⟨?_, ?_, ?_⟩ <;> simp [saveNews, hm, h]

/-- C8 witness: remote mode, transport exception on the insert. -/
theorem c8_save_no_silent_fallback_witness :
    (saveNews remoteWindow oneItemStorage quietEnv sampleItem).result
      = .ok false ∧
    (saveNews remoteWindow oneItemStorage quietEnv sampleItem).ls
      = oneItemStorage ∧
    (saveNews remoteWindow oneItemStorage quietEnv sampleItem).alerts ≠ [] :=
  c8_save_no_silent_fallback remoteWindow oneItemStorage quietEnv sampleItem
    (by decide) (by intro h; cases h)

/-- A window in which the globals are absent and the public-config object is
present but carries an empty key. -/
def c4Window : Window :=
  { SB_URL := none, SB_KEY := none,
    SUPABASE_PUBLIC_CONFIG :=
      some { URL := some "https://cfg.example", ANON_KEY := some "" },
    ADMIN_PASSWORD_HASH := "AH", USER_PASSWORD_HASH := "UH" }

/-- Local storage whose settings blob parses to a full endpoint-key pair. -/
def c4Storage : LocalStorage :=
  { supabaseSyncSettings :=
      some (.parsed (some "https://blob.example") (some "blobkey")),
    mh_news_data := none }

/-- C4 counterexample: the persisted settings blob is the only source with
both endpoint and key present and non-empty, yet resolve returns the
public-config objects partial values — neither the blob credentials nor an
empty pair. -/
theorem c4_counterexample :
    getSupabaseCredentials c4Window c4Storage
      = { url := some "https://cfg.example", key := some "" } ∧
    getSupabaseCredentials c4Window c4Storage
      ≠ { url := some "https://blob.example", key := some "blobkey" } ∧
    truthy (some "https://blob.example") = true ∧
    truthy (some "blobkey") = true ∧
    truthy (getSupabaseCredentials c4Window c4Storage).url = true ∧
    truthy (getSupabaseCredentials c4Window c4Storage).key = false := by
  decide

/-- C4 (amended): the globals are returned when both are non-empty;
otherwise a present public-config object always supplies the result, its
two fields taken as they are, and the settings blob is never consulted; the
blob is read only when the config object is absent, a parseable blob
replacing both components and a missing, empty or malformed blob leaving
the globals as the result. Local-fallback mode is signaled by either
returned component being absent or empty, not by an always-empty pair. -/
theorem c4_amended (w : Window) (ls : LocalStorage) :
    ((truthy w.SB_URL && truthy w.SB_KEY) = true →
      getSupabaseCredentials w ls = { url := w.SB_URL, key := w.SB_KEY }) ∧
    (∀ cfg, (truthy w.SB_URL && truthy w.SB_KEY) = false →
      w.SUPABASE_PUBLIC_CONFIG = some cfg →
      getSupabaseCredentials w ls = { url := cfg.URL, key := cfg.ANON_KEY }) ∧
    (∀ u k, (truthy w.SB_URL && truthy w.SB_KEY) = false →
      w.SUPABASE_PUBLIC_CONFIG = none →
      ls.supabaseSyncSettings = some (.parsed u k) →
      getSupabaseCredentials w ls = { url := u, key := k }) ∧
    ((truthy w.SB_URL && truthy w.SB_KEY) = false →
      w.SUPABASE_PUBLIC_CONFIG = none →
      (ls.supabaseSyncSettings = none ∨
        ls.supabaseSyncSettings = some .emptyText ∨
        ∃ s, ls.supabaseSyncSettings = some (.malformed s)) →
      getSupabaseCredentials w ls = { url := w.SB_URL, key := w.SB_KEY }) := by
  refine ⟨?_, ?_, ?_, ?_⟩
  · intro hb
    obtain ⟨h1, h2⟩ := Bool.and_eq_true_iff.mp hb
    simp [getSupabaseCredentials, h1, h2]
  · intro cfg hb hcfg
    have hor : (!truthy w.SB_URL || !truthy w.SB_KEY) = true := by
      cases hu : truthy w.SB_URL <;> cases hk : truthy w.SB_KEY <;> simp_all
    simp [getSupabaseCredentials, hor, hcfg]
  · intro u k hb hcfg hset
    have hor : (!truthy w.SB_URL || !truthy w.SB_KEY) = true := by
      cases hu : truthy w.SB_URL <;> cases hk : truthy w.SB_KEY <;> simp_all
    simp [getSupabaseCredentials, hor, hcfg, hset]
  · intro hb hcfg hset
    have hor : (!truthy w.SB_URL || !truthy w.SB_KEY) = true := by
      cases hu : truthy w.SB_URL <;> cases hk : truthy w.SB_KEY <;> simp_all
    rcases hset with h | h | ⟨s, h⟩ <;> simp [getSupabaseCredentials, hor, hcfg, h]

/-- C4 amended witness: at the concrete counterexample state, the present
config object supplies the result. -/
theorem c4_amended_witness :
    getSupabaseCredentials c4Window c4Storage
      = { url := some "https://cfg.example", key := some "" } :=
  (c4_amended c4Window c4Storage).2.1
    { URL := some "https://cfg.example", ANON_KEY := some "" } (by decide) rfl

/-- C1 counterexample: in local-fallback mode, a bulk clear whose fresh
admin re-authentication succeeds leaves the stored sequence exactly as it
was, so the store does not end up empty. -/
theorem c1_counterexample :
    (handleClearAllNews noCredsWindow (fun s => s) oneItemStorage quietEnv
        true (some "AH")).ls = oneItemStorage ∧
    readLocalNews oneItemStorage = .ok [sampleItem] ∧
    [sampleItem] ≠ ([] : List NewsItem) := by
  decide

/-- C1 (amended): after a successful fresh admin re-authentication, the
remote path issues a bulk delete whose filter is id different from 0 —
removing exactly the rows with non-zero id, hence the whole collection
whenever no row carries id 0 — while the local-fallback path returns without
touching the stored sequence at all. -/
theorem c1_amended (w : Window) (hash : String → String) (ls : LocalStorage)
    (env : Env) (pin : String) (hp : pin ≠ "")
    (hadm : hash pin = w.ADMIN_PASSWORD_HASH) :
    (remoteMode (getSupabaseCredentials w ls) = false →
      (handleClearAllNews w hash ls env true (some pin)).ls = ls ∧
      (handleClearAllNews w hash ls env true (some pin)).requestedDeleteAll
        = false) ∧
    (remoteMode (getSupabaseCredentials w ls) = true →
      (handleClearAllNews w hash ls env true (some pin)).requestedDeleteAll
        = true) ∧
    (∀ rows : List RemoteRow,
      applyClearAllRequest rows = rows.filter (fun r => r.id == 0)) ∧
    (∀ rows : List RemoteRow, (∀ r ∈ rows, r.id ≠ 0) →
      applyClearAllRequest rows = []) := by
  refine ⟨?_, ?_, ?_, ?_⟩
  · intro hm
    constructor <;> simp [handleClearAllNews, hp, hadm, hm]
  · intro hm
    cases h : env.deleteAllResp <;>
      simp [handleClearAllNews, hp, hadm, hm, h]
  · intro rows
    simp [applyClearAllRequest, bne]
  · intro rows hrows
    have h3 : applyClearAllRequest rows = rows.filter (fun r => r.id == 0) := by
      simp [applyClearAllRequest, bne]
    rw [h3, List.filter_eq_nil_iff]
    intro a ha
    simp [hrows a ha]

/-- A remote row with a non-zero serial id. -/
def rowOne : RemoteRow :=
  { id := 1, title := "T", content := "C", author := "Admin",
    news_date := "2026-01-01", image_url := "", video_url := "",
    link_url := "", publisher_role := "admin" }

/-- C1 amended witness: a concrete local-mode clear leaves the store as it
was, and the modelled bulk delete empties a table of non-zero ids. -/
theorem c1_amended_witness :
    (handleClearAllNews noCredsWindow (fun s => s) oneItemStorage quietEnv
        true (some "AH")).ls = oneItemStorage ∧
    applyClearAllRequest [rowOne] = [] :=
  ⟨((c1_amended noCredsWindow (fun s => s) oneItemStorage quietEnv "AH"
      (by decide) rfl).1 (by decide)).1,
   (c1_amended noCredsWindow (fun s => s) oneItemStorage quietEnv "AH"
      (by decide) rfl).2.2.2 [rowOne] (by decide)⟩

/-- toString of a defined id value never raises and agrees with idText. -/
theorem toStr_of_defined (v : JVal) (h : v ≠ .vUndef) :
    v.toStr = .ok (idText v) := by
  cases v with
  | vUndef => exact absurd rfl h
  | vStr s => rfl
  | vNum n => rfl

/-- When the given id and every stored id are defined, the delete filter of
news.js:127 keeps exactly the items whose id text differs from the given id
text. -/
theorem filterById_ok (id : JVal) (l : List NewsItem)
    (hid : id ≠ .vUndef) (hids : ∀ x ∈ l, x.id ≠ .vUndef) :
    filterById id l = .ok (l.filter (fun x => idText x.id != idText id)) := by
  induction l with
  | nil => rfl
  | cons x xs ih =>
    have hx : x.id ≠ .vUndef := hids x (by simp)
    have hxs : ∀ y ∈ xs, y.id ≠ .vUndef := fun y hy => hids y (by simp [hy])
    simp only [filterById, toStr_of_defined _ hx, toStr_of_defined _ hid,
      ih hxs, List.filter_cons, bind, Except.bind]
    split <;> simp_all

/-- getSupabaseCredentials never reads the news slot, so rewriting that slot
leaves the resolved credentials unchanged. -/
theorem creds_ignore_news (w : Window) (ls : LocalStorage)
    (b : Option NewsBlob) :
    getSupabaseCredentials w { ls with mh_news_data := b }
      = getSupabaseCredentials w ls := rfl

/-- C9: in local-fallback mode, a confirmed deleteOne with a defined id over
a store of defined ids removes exactly the stored items whose id, converted
to text, equals the given id converted to text, and keeps every other item
unchanged; no error is raised. -/
theorem c9_delete_local (w : Window) (ls : LocalStorage) (env : Env)
    (id : JVal) (l : List NewsItem)
    (hm : remoteMode (getSupabaseCredentials w ls) = false)
    (hl : readLocalNews ls = .ok l)
    (hid : id ≠ .vUndef)
    (hids : ∀ x ∈ l, x.id ≠ .vUndef) :
    (deleteNews w ls env true id).ls.mh_news_data
      = some (.jsonItems (l.filter (fun x => idText x.id != idText id))) ∧
    (deleteNews w ls env true id).result = .ok () := by
  have hfilter := filterById_ok id l hid hids
  have hm2 : remoteMode (getSupabaseCredentials w
      { ls with mh_news_data := some (.jsonItems
        (l.filter (fun x => idText x.id != idText id))) }) = false := by
    rw [creds_ignore_news]; exact hm
  have hread2 : readLocalNews
      { ls with mh_news_data := some (.jsonItems
        (l.filter (fun x => idText x.id != idText id))) }
      = .ok (l.filter (fun x => idText x.id != idText id)) := rfl
  constructor <;> simp [deleteNews, hm, hl, hfilter, getNews, hm2, hread2]

/-- Local storage holding two items whose ids are the strings 5 and 6. -/
def numIdStorage : LocalStorage :=
  { supabaseSyncSettings := none,
    mh_news_data := some (.jsonItems [userItem 5, userItem 6]) }

/-- C9 witness: deleting with the number 5 removes the item stored with the
string id 5 and keeps the item with id 6. -/
theorem c9_delete_local_witness :
    (deleteNews noCredsWindow numIdStorage quietEnv true (.vNum 5)).ls.mh_news_data
      = some (.jsonItems [userItem 6]) ∧
    (deleteNews noCredsWindow numIdStorage quietEnv true (.vNum 5)).result
      = .ok () := by
  have h := c9_delete_local noCredsWindow numIdStorage quietEnv (.vNum 5)
    [userItem 5, userItem 6] (by decide) (by decide) (by decide) (by decide)
  refine ⟨?_, h.2⟩
  rw [h.1]
  decide

/-- Once the pipeline is past the quota gate it always invokes the save, and
its outcome is never a quota rejection. -/
theorem publishAfterQuota_saves (w : Window) (ls : LocalStorage) (env : Env)
    (title content link_url authorName roleStr : String)
    (hasImgFile hasVidFile : Bool) :
    (publishAfterQuota w ls env title content link_url authorName roleStr
      hasImgFile hasVidFile).saveCalled = true ∧
    (∀ cur lim, (publishAfterQuota w ls env title content link_url authorName
      roleStr hasImgFile hasVidFile).result ≠ .quotaRejected cur lim) := by
  constructor
  · simp only [publishAfterQuota]
    split
    · rfl
    · rfl
    · split <;> rfl
  · intro cur lim
    simp only [publishAfterQuota]
    split
    · simp
    · simp
    · split <;> simp

/-- C6: the digest of the trimmed secret is compared first against the admin
hash (a match yields admin) and then against the user hash (a match yields
user); a secret matching neither is unauthenticated, and the publish handler
then writes nothing to the store and — whenever the draft passes validation,
which the code checks before the PIN — terminates with the authentication
rejection. -/
theorem c6_auth_rejection :
    (∀ (hash : String → String) a u s, hash s = a →
      authenticate hash a u s = .admin) ∧
    (∀ (hash : String → String) a u s, hash s ≠ a → hash s = u →
      authenticate hash a u s = .user) ∧
    (∀ (hash : String → String) a u s, hash s ≠ a → hash s ≠ u →
      authenticate hash a u s = .unauth) ∧
    (∀ (w : Window) (hash : String → String) (ls : LocalStorage) (env : Env)
        (titleRaw contentRaw linkRaw pinRaw : String) (hi hv : Bool),
      hash (jsTrim pinRaw) ≠ w.ADMIN_PASSWORD_HASH →
      hash (jsTrim pinRaw) ≠ w.USER_PASSWORD_HASH →
      (handleAddNews w hash ls env titleRaw contentRaw linkRaw pinRaw hi hv).saveCalled
          = false ∧
        (handleAddNews w hash ls env titleRaw contentRaw linkRaw pinRaw hi hv).ls
          = ls ∧
        (jsTrim titleRaw ≠ "" → jsTrim contentRaw ≠ "" → jsTrim pinRaw ≠ "" →
          (handleAddNews w hash ls env titleRaw contentRaw linkRaw pinRaw hi hv).result
            = .authRejected)) := by
  refine ⟨?_, ?_, ?_, ?_⟩
  · intro hash a u s h
    simp [authenticate, h]
  · intro hash a u s hA hU
    simp only [authenticate]
    rw [if_neg hA, if_pos hU]
  · intro hash a u s hA hU
    simp [authenticate, hA, hU]
  · intro w hash ls env titleRaw contentRaw linkRaw pinRaw hi hv hA hU
    have hrole : authenticate hash w.ADMIN_PASSWORD_HASH w.USER_PASSWORD_HASH
        (jsTrim pinRaw) = .unauth := by
      simp [authenticate, hA, hU]
    by_cases h1 : jsTrim titleRaw = "" ∨ jsTrim contentRaw = ""
    · refine ⟨by simp [handleAddNews, h1], by simp [handleAddNews, h1], ?_⟩
      intro ht hc _
      rcases h1 with h | h
      · exact absurd h ht
      · exact absurd h hc
    · by_cases h2 : jsTrim pinRaw = ""
      · refine ⟨by simp [handleAddNews, h1, h2],
          by simp [handleAddNews, h1, h2], ?_⟩
        intro _ _ hp
        exact absurd h2 hp
      · refine ⟨?_, ?_, fun _ _ _ => ?_⟩ <;>
          simp [handleAddNews, h1, h2, hrole]

/-- C6 witness: a secret whose digest matches neither hash leaves the store
untouched and yields the authentication rejection on a valid draft. -/
theorem c6_auth_rejection_witness :
    authenticate (fun s => s) "AH" "UH" "nope" = .unauth ∧
    (handleAddNews noCredsWindow (fun s => s) oneItemStorage quietEnv
        "Hi" "World" "" "nope" false false).saveCalled = false ∧
    (handleAddNews noCredsWindow (fun s => s) oneItemStorage quietEnv
        "Hi" "World" "" "nope" false false).ls = oneItemStorage ∧
    (handleAddNews noCredsWindow (fun s => s) oneItemStorage quietEnv
        "Hi" "World" "" "nope" false false).result = .authRejected := by
  have h4 := c6_auth_rejection.2.2.2 noCredsWindow (fun s => s) oneItemStorage
    quietEnv "Hi" "World" "" "nope" false false (by decide) (by decide)
  exact ⟨c6_auth_rejection.2.2.1 (fun s => s) "AH" "UH" "nope" (by decide)
      (by decide),
    h4.1, h4.2.1, h4.2.2 (by decide) (by decide) (by decide)⟩

/-- C5: a publish authenticated as the user role, when the current listing
succeeds and holds at least five user-published items, terminates with the
quota rejection carrying that count and the limit five, without invoking the
save; a publish authenticated as admin never terminates with a quota
rejection. -/
theorem c5_quota :
    (∀ (w : Window) (hash : String → String) (ls : LocalStorage) (env : Env)
        (titleRaw contentRaw linkRaw pinRaw : String) (hi hv : Bool)
        (items : List NewsItem),
      hash (jsTrim pinRaw) ≠ w.ADMIN_PASSWORD_HASH →
      hash (jsTrim pinRaw) = w.USER_PASSWORD_HASH →
      jsTrim titleRaw ≠ "" → jsTrim contentRaw ≠ "" → jsTrim pinRaw ≠ "" →
      getNews w ls env = .ok items →
      5 ≤ (items.filter (fun it => it.publisher_role == "user")).length →
      (handleAddNews w hash ls env titleRaw contentRaw linkRaw pinRaw hi hv).result
          = .quotaRejected
            (items.filter (fun it => it.publisher_role == "user")).length 5 ∧
        (handleAddNews w hash ls env titleRaw contentRaw linkRaw pinRaw hi hv).saveCalled
          = false) ∧
    (∀ (w : Window) (hash : String → String) (ls : LocalStorage) (env : Env)
        (titleRaw contentRaw linkRaw pinRaw : String) (hi hv : Bool)
        (cur lim : Nat),
      hash (jsTrim pinRaw) = w.ADMIN_PASSWORD_HASH →
      (handleAddNews w hash ls env titleRaw contentRaw linkRaw pinRaw hi hv).result
        ≠ .quotaRejected cur lim) := by
  constructor
  · intro w hash ls env titleRaw contentRaw linkRaw pinRaw hi hv items
      hA hU ht hc hp hlist hn
    have hrole : authenticate hash w.ADMIN_PASSWORD_HASH w.USER_PASSWORD_HASH
        (jsTrim pinRaw) = .user := by
      simp only [authenticate]
      rw [if_neg hA, if_pos hU]
    constructor <;> simp [handleAddNews, ht, hc, hp, hrole, hlist, hn]
  · intro w hash ls env titleRaw contentRaw linkRaw pinRaw hi hv cur lim hAdm
    have hrole : authenticate hash w.ADMIN_PASSWORD_HASH w.USER_PASSWORD_HASH
        (jsTrim pinRaw) = .admin := by
      simp [authenticate, hAdm]
    by_cases h1 : jsTrim titleRaw = "" ∨ jsTrim contentRaw = ""
    · simp [handleAddNews, h1]
    · by_cases h2 : jsTrim pinRaw = ""
      · simp [handleAddNews, h1, h2]
      · have h3 := (publishAfterQuota_saves w ls env (jsTrim titleRaw)
          (jsTrim contentRaw) (normalizeLink (jsTrim linkRaw)) "Admin" "admin"
          hi hv).2 cur lim
        simpa [handleAddNews, h1, h2, hrole] using h3

/-- C5 witness: with five stored user items, a sixth user-secret publish is
rejected as five of five and the save never runs; the admin secret is never
quota-rejected on the same state. -/
theorem c5_quota_witness :
    (handleAddNews noCredsWindow (fun s => s) fiveUserStorage quietEnv
        "Hi" "World" "" "UH" false false).result = .quotaRejected 5 5 ∧
    (handleAddNews noCredsWindow (fun s => s) fiveUserStorage quietEnv
        "Hi" "World" "" "UH" false false).saveCalled = false ∧
    (handleAddNews noCredsWindow (fun s => s) fiveUserStorage quietEnv
        "Hi" "World" "" "AH" false false).result ≠ .quotaRejected 5 5 := by
  have h1 := c5_quota.1 noCredsWindow (fun s => s) fiveUserStorage quietEnv
    "Hi" "World" "" "UH" false false
    [userItem 1, userItem 2, userItem 3, userItem 4, userItem 5]
    (by decide) (by decide) (by decide) (by decide) (by decide)
    (by decide) (by decide)
  have h2 := c5_quota.2 noCredsWindow (fun s => s) fiveUserStorage quietEnv
    "Hi" "World" "" "AH" false false 5 5 (by decide)
  refine ⟨?_, ?_, h2⟩
  · rw [h1.1]
    decide
  · exact h1.2

/-- C10: when the listing inside the user-role quota gate raises, the
exception is swallowed and the publish proceeds to the upload and save
stages — the save is invoked and the outcome is never a quota rejection, so
quota enforcement is skipped whenever the current count cannot be
computed. -/
theorem c10_quota_skipped (w : Window) (hash : String → String)
    (ls : LocalStorage) (env : Env)
    (titleRaw contentRaw linkRaw pinRaw : String) (hi hv : Bool) (e : JsError)
    (hA : hash (jsTrim pinRaw) ≠ w.ADMIN_PASSWORD_HASH)
    (hU : hash (jsTrim pinRaw) = w.USER_PASSWORD_HASH)
    (ht : jsTrim titleRaw ≠ "") (hc : jsTrim contentRaw ≠ "")
    (hp : jsTrim pinRaw ≠ "")
    (hg : getNews w ls env = .error e) :
    (handleAddNews w hash ls env titleRaw contentRaw linkRaw pinRaw hi hv).saveCalled
        = true ∧
    (handleAddNews w hash ls env titleRaw contentRaw linkRaw pinRaw hi hv).uploadCalls
        = (if hi then 1 else 0) + (if hv then 1 else 0) ∧
    (∀ cur lim,
      (handleAddNews w hash ls env titleRaw contentRaw linkRaw pinRaw hi hv).result
        ≠ .quotaRejected cur lim) := by
  have hrole : authenticate hash w.ADMIN_PASSWORD_HASH w.USER_PASSWORD_HASH
      (jsTrim pinRaw) = .user := by
    simp only [authenticate]
    rw [if_neg hA, if_pos hU]
  have hq := publishAfterQuota_saves w ls env (jsTrim titleRaw)
    (jsTrim contentRaw) (normalizeLink (jsTrim linkRaw)) "User" "user" hi hv
  refine ⟨?_, ?_, ?_⟩
  · simpa [handleAddNews, ht, hc, hp, hrole, hg] using hq.1
  · simp [handleAddNews, ht, hc, hp, hrole, hg, publishAfterQuota]
    split
    · rfl
    · rfl
    · split <;> rfl
  · intro cur lim
    simpa [handleAddNews, ht, hc, hp, hrole, hg] using hq.2 cur lim

/-- C10 witness: with malformed local data and no credentials the listing
raises, yet the user-secret publish still reaches the save (which itself
then raises on the same malformed slot) and is not quota-rejected. -/
theorem c10_quota_skipped_witness :
    (handleAddNews noCredsWindow (fun s => s) malformedStorage quietEnv
        "Hi" "World" "" "UH" false false).saveCalled = true ∧
    (handleAddNews noCredsWindow (fun s => s) malformedStorage quietEnv
        "Hi" "World" "" "UH" false false).uploadCalls = 0 ∧
    (handleAddNews noCredsWindow (fun s => s) malformedStorage quietEnv
        "Hi" "World" "" "UH" false false).result
      ≠ .quotaRejected 0 5 := by
  have h := c10_quota_skipped noCredsWindow (fun s => s) malformedStorage
    quietEnv "Hi" "World" "" "UH" false false .parseError
    (by decide) (by decide) (by decide) (by decide) (by decide) (by decide)
  exact ⟨h.1, h.2.1, h.2.2 0 5⟩

/-- A local-mode list after rewriting the news slot returns exactly the
newly written sequence. -/
theorem getNews_after_local_write (w : Window) (ls : LocalStorage) (env : Env)
    (l2 : List NewsItem)
    (hm : remoteMode (getSupabaseCredentials w ls) = false) :
    getNews w { ls with mh_news_data := some (.jsonItems l2) } env
      = .ok l2 := by
  have hm2 : remoteMode (getSupabaseCredentials w
      { ls with mh_news_data := some (.jsonItems l2) }) = false := by
    rw [creds_ignore_news]; exact hm
  simp [getNews, hm2, readLocalNews]

/-- The record the publish handler builds and saves for an admin draft with
no media files (news.js:449-458): no id field, trimmed title and content,
the fixed author, the environment timestamp, and the normalized link. -/
def pipelineItem (titleRaw contentRaw linkRaw now : String) : NewsItem :=
  { id := JVal.vUndef, title := jsTrim titleRaw, content := jsTrim contentRaw,
    author := "Admin", date := now, image_url := "", video_url := "",
    link_url := normalizeLink (jsTrim linkRaw), publisher_role := "admin" }

/-- C3 counterexample: a valid admin publish in local-fallback mode stores
and then lists the item, but the listed item carries no id at all — the id
position is undefined, not a non-empty identifier. -/
theorem c3_counterexample :
    getNews noCredsWindow
      (handleAddNews noCredsWindow (fun s => s) emptyStorage quietEnv
        "Hi" "World" "example.com" "AH" false false).ls quietEnv
      = .ok [pipelineItem "Hi" "World" "example.com"
          "2026-01-02T00:00:00.000Z"] ∧
    (pipelineItem "Hi" "World" "example.com"
        "2026-01-02T00:00:00.000Z").link_url = "https://example.com" ∧
    (pipelineItem "Hi" "World" "example.com"
        "2026-01-02T00:00:00.000Z").id = JVal.vUndef ∧
    JVal.toStr JVal.vUndef = .error .typeError := by
  decide

/-- C3 (amended): an item saved through the local-fallback save and then
listed comes back with exactly the fields it was saved with — in particular
the same title, content and link_url, the latter scheme-normalized by the
publish handler before the save — and with the same id as the saved draft;
the local save assigns no id, so an item published through the pipeline is
listed with an undefined id rather than a non-empty one. -/
theorem c3_amended (w : Window) (ls : LocalStorage) (env : Env)
    (item : NewsItem) (l : List NewsItem)
    (hm : remoteMode (getSupabaseCredentials w ls) = false)
    (hl : readLocalNews ls = .ok l) :
    (saveNews w ls env item).result = .ok true ∧
    getNews w (saveNews w ls env item).ls env = .ok (l ++ [item]) ∧
    (∀ (hash : String → String) (titleRaw contentRaw linkRaw pinRaw : String),
      jsTrim titleRaw ≠ "" → jsTrim contentRaw ≠ "" → jsTrim pinRaw ≠ "" →
      hash (jsTrim pinRaw) = w.ADMIN_PASSWORD_HASH →
      (handleAddNews w hash ls env titleRaw contentRaw linkRaw pinRaw
          false false).ls.mh_news_data
        = some (.jsonItems
            (l ++ [pipelineItem titleRaw contentRaw linkRaw env.now]))) := by
  refine ⟨?_, ?_, ?_⟩
  · simp [saveNews, hm, hl]
  · simp [saveNews, hm, hl, getNews_after_local_write w ls env (l ++ [item]) hm]
  · intro hash titleRaw contentRaw linkRaw pinRaw ht hc hp hadm
    have hrole : authenticate hash w.ADMIN_PASSWORD_HASH w.USER_PASSWORD_HASH
        (jsTrim pinRaw) = .admin := by
      simp [authenticate, hadm]
    simp [handleAddNews, ht, hc, hp, hrole, publishAfterQuota, saveNews, hm,
      hl, getNews_after_local_write w ls env, pipelineItem]

/-- C3 amended witness: a direct local save round-trips one concrete item
unchanged, and a concrete admin publish stores the normalized link with an
undefined id. -/
theorem c3_amended_witness :
    (saveNews noCredsWindow emptyStorage quietEnv sampleItem).result
      = .ok true ∧
    getNews noCredsWindow
        (saveNews noCredsWindow emptyStorage quietEnv sampleItem).ls quietEnv
      = .ok [sampleItem] ∧
    (handleAddNews noCredsWindow (fun s => s) emptyStorage quietEnv
        "Hi" "World" "example.com" "AH" false false).ls.mh_news_data
      = some (.jsonItems [pipelineItem "Hi" "World" "example.com"
          "2026-01-02T00:00:00.000Z"]) := by
  have h := c3_amended noCredsWindow emptyStorage quietEnv sampleItem []
    (by decide) (by decide)
  refine ⟨h.1, ?_, ?_⟩
  · simpa using h.2.1
  · have h3 := h.2.2 (fun s => s) "Hi" "World" "example.com" "AH"
      (by decide) (by decide) (by decide) (by decide)
    rw [h3]
    decide

end LishNews
